import Mathlib

/-!
Verification of the FRI-Analysis repository: a soundness-error computation
for a FRI-based polynomial IOP (RISC Zero), consisting of two notebooks,
`risc0-security-analysis.ipynb` (list-decoding provable and conjectured
regimes) and `risc0-security-analysis-UDR.ipynb` (unique-decoding regime).

Each notebook computes, from protocol parameters
`k, h, e, p, C, s` (and regime extras `m`, or `ε, c1, c2, C_rho`),
six error terms and their sum `e_IOP`, reported as `bits = -log2 e_IOP`.

The notebooks compute with Python floats; the embedding below gives the
ideal real-number semantics of the same formulas (`math.sqrt ↦ Real.sqrt`,
`math.pow ↦ ^` / `Real.rpow`, `math.log(·, 2) ↦ Real.logb 2`,
`math.floor/ceil ↦ Int.floor/ceil`).  The float representation of the
field size `F = p^e` is modelled separately and exactly by `roundNearest53`.
-/

namespace FRIAnalysis

/-- Regime tag for the three analyses (spec §3). -/
inductive Regime
  | ListDecodingProvable
  | ListDecodingConjectured
  | UniqueDecoding
deriving DecidableEq

/-- Modelled from the spec: the notebooks guard feasibility with bare
`assert` statements; the spec (§4.2, §7) names the raised error
`ConstraintViolation`, carrying the regime and the computed margin.
The margin is the amount by which the bound exceeds the candidate `θ`. -/
structure ConstraintViolation where
  regime : Regime
  margin : ℝ

/-- Round a natural number to the nearest IEEE-754 binary64 value
(53 significant bits, ties to even), returned as the exact natural number
the double represents.  This models `math.pow(p, e)` on exact integer
arguments in `risc0-security-analysis.ipynb` line `F = math.pow(p, e)`:
the true integer `p^e` is rounded to the nearest representable double.
`sizeFuel` is a fuel-driven bit-length so the kernel can evaluate it. -/
def sizeFuel : ℕ → ℕ → ℕ
  | 0, _ => 0
  | fuel + 1, n => if n = 0 then 0 else sizeFuel fuel (n / 2) + 1

/-- Bit length of a natural number (`0` for `0`). -/
def natSize (n : ℕ) : ℕ := sizeFuel n n

/-- Round-to-nearest-even at 53 significant bits (see `sizeFuel`). -/
def roundNearest53 (n : ℕ) : ℕ :=
  if natSize n ≤ 53 then n
  else
    let k := natSize n - 53
    let q := n / 2 ^ k
    let r := n % 2 ^ k
    if r < 2 ^ (k - 1) then q * 2 ^ k
    else if 2 ^ (k - 1) < r then (q + 1) * 2 ^ k
    else if q % 2 = 0 then q * 2 ^ k else (q + 1) * 2 ^ k

/-- The double-precision value actually stored for `F = math.pow(p, e)`. -/
def F_float (p e : ℕ) : ℕ := roundNearest53 (p ^ e)

namespace Provable

/-- `rho = 1 / (1 << k)` — the rate. -/
noncomputable def rho (k : ℕ) : ℝ := 1 / 2 ^ k

/-- `H = 1 << h` — domain size. -/
noncomputable def H (h : ℕ) : ℝ := 2 ^ h

/-- `D = H / rho` — domain size after low-degree extension. -/
noncomputable def D (k h : ℕ) : ℝ := H h / rho k

/-- `F = math.pow(p, e)` — extension field size (ideal value; the float
rounding of the notebook is modelled by `F_float`). -/
noncomputable def F (p e : ℕ) : ℝ := (p : ℝ) ^ e

/-- `L = C + 4` — number of polynomials in the FRI batch. -/
noncomputable def L (C : ℕ) : ℝ := (C : ℝ) + 4

/-- `alpha = (1 + 1 / (2 * m)) * math.sqrt(rho)`. -/
noncomputable def alpha (k m : ℕ) : ℝ := (1 + 1 / (2 * (m : ℝ))) * Real.sqrt (rho k)

/-- `theta = 1 - alpha`. -/
noncomputable def theta (k m : ℕ) : ℝ := 1 - alpha k m

/-- `e_proximity_gap = math.pow(m + 1/2, 7) / (3 * math.pow(rho, 3/2)) * math.pow(D, 2) / F`. -/
noncomputable def e_proximity_gap (k h e p m : ℕ) : ℝ :=
  ((m : ℝ) + 1 / 2) ^ (7 : ℕ) / (3 * rho k ^ ((3 : ℝ) / 2)) * D k h ^ (2 : ℕ) / F p e

/-- The folding-error sub-term
`(2 * m + 1) * (D + 1) * 16 * math.floor((h + 2) / 4 - 2) / (math.sqrt(rho) * F)`,
which appears inline in both `e_FRI_constant` assignments of the notebook. -/
noncomputable def e_fold (k h e p m : ℕ) : ℝ :=
  (2 * (m : ℝ) + 1) * (D k h + 1) * 16 * ((⌊((h : ℝ) + 2) / 4 - 2⌋ : ℤ) : ℝ) /
    (Real.sqrt (rho k) * F p e)

/-- `e_FRI_constant = (L - 1/2) * e_proximity_gap + ⟨folding term⟩`. -/
noncomputable def e_FRI_constant (k h e p C m : ℕ) : ℝ :=
  (L C - 1 / 2) * e_proximity_gap k h e p m + e_fold k h e p m

/-- `e_FRI_queries = math.pow(1 - theta, s)`. -/
noncomputable def e_FRI_queries (k m s : ℕ) : ℝ := (1 - theta k m) ^ s

/-- `e_FRI = e_FRI_constant + e_FRI_queries`. -/
noncomputable def e_FRI (k h e p C m s : ℕ) : ℝ :=
  e_FRI_constant k h e p C m + e_FRI_queries k m s

/-- `rho_plus = (H + 2) / D` — effective rate of the function-field code. -/
noncomputable def rho_plus (k h : ℕ) : ℝ := (H h + 2) / D k h

/-- `m_plus = math.ceil(1 / (2 * (alpha / math.sqrt(rho_plus) - 1)))`. -/
noncomputable def m_plus (k h m : ℕ) : ℤ :=
  ⌈1 / (2 * (alpha k m / Real.sqrt (rho_plus k h) - 1))⌉

/-- `L_plus = (m_plus + 1/2) / math.sqrt(rho_plus)` — Guruswami–Sudan list size. -/
noncomputable def L_plus (k h m : ℕ) : ℝ :=
  ((m_plus k h m : ℝ) + 1 / 2) / Real.sqrt (rho_plus k h)

/-- `e_ALI = L_plus * C / F`. -/
noncomputable def e_ALI (k h e p C m : ℕ) : ℝ := L_plus k h m * (C : ℝ) / F p e

/-- `e_DEEP = L_plus * (4 * (H + 1) + (H - 1)) / (F - H - D)`. -/
noncomputable def e_DEEP (k h e p m : ℕ) : ℝ :=
  L_plus k h m * (4 * (H h + 1) + (H h - 1)) / (F p e - H h - D k h)

/-- `e_PLONK = e * 5 * H / F`. -/
noncomputable def e_PLONK (h e p : ℕ) : ℝ := (e : ℝ) * 5 * H h / F p e

/-- `e_PLOOKUP = e * 15 * H / F`. -/
noncomputable def e_PLOOKUP (h e p : ℕ) : ℝ := (e : ℝ) * 15 * H h / F p e

/-- `e_IOP = e_FRI + e_ALI + e_DEEP + e_PLONK + e_PLOOKUP`. -/
noncomputable def e_IOP (k h e p C s m : ℕ) : ℝ :=
  e_FRI k h e p C m s + e_ALI k h e p C m + e_DEEP k h e p m +
    e_PLONK h e p + e_PLOOKUP h e p

/-- Bits of security: `-log2(e_IOP)` (the notebook prints `math.log(e_IOP, 2)`,
the spec reports its negation). -/
noncomputable def bits (k h e p C s m : ℕ) : ℝ := - Real.logb 2 (e_IOP k h e p C s m)

/-- The sum of the five error terms other than `e_FRI_queries`; `e_IOP`
is this plus `e_FRI_queries` (used to state monotonicity in `s`). -/
noncomputable def rest (k h e p C m : ℕ) : ℝ :=
  e_FRI_constant k h e p C m + e_ALI k h e p C m + e_DEEP k h e p m +
    e_PLONK h e p + e_PLOOKUP h e p

open Classical in
/-- The feasibility check `assert theta < 1 - math.sqrt(rho_plus)` for a
candidate proximity parameter `θ`, as an Except value (spec §4.2:
violation raises `ConstraintViolation` naming the regime and margin). -/
noncomputable def validate (k h : ℕ) (θ : ℝ) : Except ConstraintViolation Unit :=
  if θ < 1 - Real.sqrt (rho_plus k h) then .ok ()
  else .error ⟨.ListDecodingProvable, (1 - Real.sqrt (rho_plus k h)) - θ⟩

open Classical in
/-- The provable-regime computation: the two notebook `assert`s followed by
the report value `e_IOP` (a failed assertion aborts the run). -/
noncomputable def run (k h e p C s m : ℕ) : Except ConstraintViolation ℝ :=
  match validate k h (theta k m) with
  | .error v => .error v
  | .ok _ =>
    if theta k m ≤ 1 - Real.sqrt (rho_plus k h) * (1 + 1 / (2 * (m_plus k h m : ℝ))) then
      .ok (e_IOP k h e p C s m)
    else
      .error ⟨.ListDecodingProvable,
        (1 - Real.sqrt (rho_plus k h) * (1 + 1 / (2 * (m_plus k h m : ℝ)))) - theta k m⟩

end Provable

namespace Conjectured

/-- `theta = 1 - rho - epsilon` (overwrites the provable-regime `theta`). -/
noncomputable def theta (k : ℕ) (ε : ℝ) : ℝ := 1 - Provable.rho k - ε

/-- `epsilon_plus = 1 - rho_plus - theta`. -/
noncomputable def epsilon_plus (k h : ℕ) (ε : ℝ) : ℝ :=
  1 - Provable.rho_plus k h - theta k ε

/-- `e_proximity_gap = 1 / math.pow(epsilon * rho, c_1) * L * math.pow(D, c_2) / F`. -/
noncomputable def e_proximity_gap (k h e p C : ℕ) (ε : ℝ) (c1 c2 : ℕ) : ℝ :=
  1 / (ε * Provable.rho k) ^ c1 * Provable.L C * Provable.D k h ^ c2 / Provable.F p e

/-- `e_FRI_constant = (L - 1/2) * e_proximity_gap + ⟨folding term⟩`
(the folding term reuses the provable-regime Johnson parameter `m`). -/
noncomputable def e_FRI_constant (k h e p C m : ℕ) (ε : ℝ) (c1 c2 : ℕ) : ℝ :=
  (Provable.L C - 1 / 2) * e_proximity_gap k h e p C ε c1 c2 + Provable.e_fold k h e p m

/-- `e_FRI_queries = math.pow(1 - theta, s)` with the new `theta`. -/
noncomputable def e_FRI_queries (k s : ℕ) (ε : ℝ) : ℝ := (1 - theta k ε) ^ s

/-- `L_plus = math.ceil(math.pow(D / epsilon_plus, C_rho))`. -/
noncomputable def L_plus (k h : ℕ) (ε : ℝ) (Crho : ℕ) : ℤ :=
  ⌈(Provable.D k h / epsilon_plus k h ε) ^ Crho⌉

/-- `e_ALI = L_plus * C / F`. -/
noncomputable def e_ALI (k h e p C : ℕ) (ε : ℝ) (Crho : ℕ) : ℝ :=
  (L_plus k h ε Crho : ℝ) * (C : ℝ) / Provable.F p e

/-- `e_DEEP = L_plus * (4 * (H + 1) + (H - 1)) / (F - H - D)`. -/
noncomputable def e_DEEP (k h e p : ℕ) (ε : ℝ) (Crho : ℕ) : ℝ :=
  (L_plus k h ε Crho : ℝ) * (4 * (Provable.H h + 1) + (Provable.H h - 1)) /
    (Provable.F p e - Provable.H h - Provable.D k h)

/-- `e_PLONK = e * 5 * H / F` (recomputed identically in the conjectured cells). -/
noncomputable def e_PLONK (h e p : ℕ) : ℝ := (e : ℝ) * 5 * Provable.H h / Provable.F p e

/-- `e_PLOOKUP = e * 15 * H / F` (recomputed identically in the conjectured cells). -/
noncomputable def e_PLOOKUP (h e p : ℕ) : ℝ := (e : ℝ) * 15 * Provable.H h / Provable.F p e

/-- `e_IOP = (e_FRI_constant + e_FRI_queries) + e_ALI + e_DEEP + e_PLONK + e_PLOOKUP`. -/
noncomputable def e_IOP (k h e p C s m : ℕ) (ε : ℝ) (c1 c2 Crho : ℕ) : ℝ :=
  (e_FRI_constant k h e p C m ε c1 c2 + e_FRI_queries k s ε) +
    e_ALI k h e p C ε Crho + e_DEEP k h e p ε Crho + e_PLONK h e p + e_PLOOKUP h e p

/-- Bits of security in the conjectured regime. -/
noncomputable def bits (k h e p C s m : ℕ) (ε : ℝ) (c1 c2 Crho : ℕ) : ℝ :=
  - Real.logb 2 (e_IOP k h e p C s m ε c1 c2 Crho)

/-- Sum of all terms except `e_FRI_queries` (for monotonicity in `s`). -/
noncomputable def rest (k h e p C m : ℕ) (ε : ℝ) (c1 c2 Crho : ℕ) : ℝ :=
  e_FRI_constant k h e p C m ε c1 c2 + e_ALI k h e p C ε Crho +
    e_DEEP k h e p ε Crho + e_PLONK h e p + e_PLOOKUP h e p

end Conjectured

namespace UDR

/-- `rho = 1 / (1 << k)` (UDR notebook constants cell). -/
noncomputable def rho (k : ℕ) : ℝ := 1 / 2 ^ k

/-- `H = 1 << h`. -/
noncomputable def H (h : ℕ) : ℝ := 2 ^ h

/-- `D = H / rho`. -/
noncomputable def D (k h : ℕ) : ℝ := H h / rho k

/-- `F = math.pow(p, e)` (ideal value). -/
noncomputable def F (p e : ℕ) : ℝ := (p : ℝ) ^ e

/-- `L = C + 4`. -/
noncomputable def L (C : ℕ) : ℝ := (C : ℝ) + 4

/-- `alpha = 1 - (1 - rho) / 2` (unique-decoding radius). -/
noncomputable def alpha (k : ℕ) : ℝ := 1 - (1 - rho k) / 2

/-- `theta = 1 - alpha`. -/
noncomputable def theta (k : ℕ) : ℝ := 1 - alpha k

/-- `e_proximity_gap = D / F`. -/
noncomputable def e_proximity_gap (k h e p : ℕ) : ℝ := D k h / F p e

/-- `e_FRI_constant = (L + 1) * e_proximity_gap` (no folding term). -/
noncomputable def e_FRI_constant (k h e p C : ℕ) : ℝ :=
  (L C + 1) * e_proximity_gap k h e p

/-- `e_FRI_queries = math.pow(1 - theta, s)`. -/
noncomputable def e_FRI_queries (k s : ℕ) : ℝ := (1 - theta k) ^ s

/-- `rho_plus = (H + 2) / D`. -/
noncomputable def rho_plus (k h : ℕ) : ℝ := (H h + 2) / D k h

/-- `m_plus = math.ceil(1 / (2 * (alpha / math.sqrt(rho_plus) - 1)))`
(computed and asserted on, but used in no error term). -/
noncomputable def m_plus (k h : ℕ) : ℤ :=
  ⌈1 / (2 * (alpha k / Real.sqrt (rho_plus k h) - 1))⌉

/-- `L_plus = 1` — the list size is fixed to 1 in the unique-decoding regime. -/
noncomputable def L_plus : ℝ := 1

/-- `e_ALI = L_plus * C / F`. -/
noncomputable def e_ALI (e p C : ℕ) : ℝ := L_plus * (C : ℝ) / F p e

/-- `e_DEEP = L_plus * (4 * (H + 1) + (H - 1)) / (F - H - D)`. -/
noncomputable def e_DEEP (k h e p : ℕ) : ℝ :=
  L_plus * (4 * (H h + 1) + (H h - 1)) / (F p e - H h - D k h)

/-- `e_PLONK = e * 5 * H / F`. -/
noncomputable def e_PLONK (h e p : ℕ) : ℝ := (e : ℝ) * 5 * H h / F p e

/-- `e_PLOOKUP = e * 15 * H / F`. -/
noncomputable def e_PLOOKUP (h e p : ℕ) : ℝ := (e : ℝ) * 15 * H h / F p e

/-- `e_IOP = (e_FRI_constant + e_FRI_queries) + e_ALI + e_DEEP + e_PLONK + e_PLOOKUP`. -/
noncomputable def e_IOP (k h e p C s : ℕ) : ℝ :=
  (e_FRI_constant k h e p C + e_FRI_queries k s) + e_ALI e p C + e_DEEP k h e p +
    e_PLONK h e p + e_PLOOKUP h e p

/-- Bits of security in the unique-decoding regime. -/
noncomputable def bits (k h e p C s : ℕ) : ℝ := - Real.logb 2 (e_IOP k h e p C s)

/-- Sum of all terms except `e_FRI_queries` (for monotonicity in `s`). -/
noncomputable def rest (k h e p C : ℕ) : ℝ :=
  e_FRI_constant k h e p C + e_ALI e p C + e_DEEP k h e p +
    e_PLONK h e p + e_PLOOKUP h e p

open Classical in
/-- The UDR computation: the two notebook `assert`s followed by the report
value `e_IOP`; a failed assertion aborts the run without a report. -/
noncomputable def run (k h e p C s : ℕ) : Except ConstraintViolation ℝ :=
  if theta k < 1 - Real.sqrt (rho_plus k h) then
    if theta k ≤ 1 - Real.sqrt (rho_plus k h) * (1 + 1 / (2 * (m_plus k h : ℝ))) then
      .ok (e_IOP k h e p C s)
    else
      .error ⟨.UniqueDecoding,
        (1 - Real.sqrt (rho_plus k h) * (1 + 1 / (2 * (m_plus k h : ℝ)))) - theta k⟩
  else .error ⟨.UniqueDecoding, (1 - Real.sqrt (rho_plus k h)) - theta k⟩

end UDR

/-- The Johnson bound condition `θ ≤ 1 - √ρ⁺·(1 + 1/(2·j))` (spec §4.3),
the condition the notebooks' second `assert` checks at `j = m⁺`. -/
def johnsonBound (θ ρplus : ℝ) (j : ℤ) : Prop :=
  θ ≤ 1 - Real.sqrt ρplus * (1 + 1 / (2 * (j : ℝ)))

/-- The closed form `m⁺ = math.ceil(1 / (2 * (alpha / math.sqrt(rho_plus) - 1)))`
of the notebooks, over general real inputs (the notebooks instantiate
`alpha = (1+1/(2m))·√ρ` and `rho_plus = (H+2)/D`). -/
noncomputable def mPlusFormula (alpha ρplus : ℝ) : ℤ :=
  ⌈1 / (2 * (alpha / Real.sqrt ρplus - 1))⌉

/-- C7: in the UniqueDecoding regime the list size `L⁺` is the constant 1,
independent of every parameter, and `e_FRI_constant` is `(L+1) * e_proximity`
with `e_proximity = D / F` and no folding sub-term. -/
theorem c7_udr_list_size_invariant (k h e p C : ℕ) :
    UDR.L_plus = 1 ∧
    UDR.e_proximity_gap k h e p = UDR.D k h / UDR.F p e ∧
    UDR.e_FRI_constant k h e p C = (UDR.L C + 1) * UDR.e_proximity_gap k h e p :=
  ⟨rfl, rfl, rfl⟩

/-- C9: the PLONK term `e*5*H/F` and the PLOOKUP term `e*15*H/F` are functions
of `(e, H, F)` only, so they coincide across the three regimes for matching
`h` (and identical `e`, `p`). -/
theorem c9_regime_independence (h e p : ℕ) :
    Provable.e_PLONK h e p = (e : ℝ) * 5 * (2 : ℝ) ^ h / (p : ℝ) ^ e ∧
    Provable.e_PLOOKUP h e p = (e : ℝ) * 15 * (2 : ℝ) ^ h / (p : ℝ) ^ e ∧
    Conjectured.e_PLONK h e p = Provable.e_PLONK h e p ∧
    Conjectured.e_PLOOKUP h e p = Provable.e_PLOOKUP h e p ∧
    UDR.e_PLONK h e p = Provable.e_PLONK h e p ∧
    UDR.e_PLOOKUP h e p = Provable.e_PLOOKUP h e p :=
  ⟨rfl, rfl, rfl, rfl, rfl, rfl⟩


/-! ### Numeric evaluation helpers -/

/-- Two-sided bound on `logb 2 x` from rational bounds `q1 ≤ x ≤ q2` and
kernel-checkable integer power inequalities. -/
lemma logb2_interval {x q1 q2 : ℝ} {n a b : ℕ} (h1 : 0 < q1) (hq1 : q1 ≤ x)
    (hq2 : x ≤ q2) (hn : 0 < n) (hA : q2 ^ n * 2 ^ a ≤ 1) (hB : 1 ≤ q1 ^ n * 2 ^ b) :
    -((b : ℝ) / n) ≤ Real.logb 2 x ∧ Real.logb 2 x ≤ -((a : ℝ) / n) := by
  have hx : 0 < x := h1.trans_le hq1
  have h2a : (0:ℝ) < 2 ^ a := by positivity
  have h2b : (0:ℝ) < 2 ^ b := by positivity
  have hn' : (0:ℝ) < n := by exact_mod_cast hn
  have hlog2 : Real.logb 2 (2:ℝ) = 1 := Real.logb_self_eq_one one_lt_two
  constructor
  · have key : 1 / 2 ^ b ≤ x ^ n := by
      rw [div_le_iff₀ h2b]
      calc (1:ℝ) ≤ q1 ^ n * 2 ^ b := hB
        _ ≤ x ^ n * 2 ^ b := by gcongr
    have hmono : Real.logb 2 (1 / 2 ^ b) ≤ Real.logb 2 (x ^ n) :=
      Real.logb_le_logb_of_le one_lt_two (by positivity) key
    rw [one_div, Real.logb_inv, Real.logb_pow, Real.logb_pow, hlog2] at hmono
    rw [← neg_div, div_le_iff₀ hn']
    nlinarith [hmono]
  · have key : x ^ n ≤ 1 / 2 ^ a := by
      rw [le_div_iff₀ h2a]
      calc x ^ n * 2 ^ a ≤ q2 ^ n * 2 ^ a := by gcongr
        _ ≤ 1 := hA
    have hmono : Real.logb 2 (x ^ n) ≤ Real.logb 2 (1 / 2 ^ a) :=
      Real.logb_le_logb_of_le one_lt_two (by positivity) key
    rw [one_div, Real.logb_inv, Real.logb_pow, Real.logb_pow, hlog2] at hmono
    rw [← neg_div, le_div_iff₀ hn']
    nlinarith [hmono]

/-- Derived form of `logb2_interval` giving a decimal absolute-error bound. -/
lemma abs_logb_add_le {x q1 q2 c t : ℝ} {n a b : ℕ} (h1 : 0 < q1) (hq1 : q1 ≤ x)
    (hq2 : x ≤ q2) (hn : 0 < n) (hA : q2 ^ n * 2 ^ a ≤ 1) (hB : 1 ≤ q1 ^ n * 2 ^ b)
    (hc1 : c - t ≤ (a : ℝ) / n) (hc2 : (b : ℝ) / n ≤ c + t) :
    |Real.logb 2 x + c| ≤ t := by
  obtain ⟨hl, hr⟩ := logb2_interval h1 hq1 hq2 hn hA hB
  rw [abs_le]
  constructor <;> linarith

namespace Provable

lemma rho_two : rho 2 = 1 / 4 := by norm_num [rho]

lemma sqrt_rho_two : Real.sqrt (rho 2) = 1 / 2 := by
  rw [rho_two, show (1/4 : ℝ) = (1/2)^2 by norm_num, Real.sqrt_sq (by norm_num)]

lemma rho_two_rpow : rho 2 ^ ((3:ℝ)/2) = 1 / 8 := by
  rw [rho_two, show (1/4 : ℝ) = (1/2)^(2:ℕ) by norm_num,
    ← Real.rpow_natCast ((1:ℝ)/2) 2, ← Real.rpow_mul (by norm_num)]
  rw [show ((2:ℕ):ℝ) * (3/2) = ((3:ℕ):ℝ) by push_cast; norm_num, Real.rpow_natCast]
  norm_num

lemma alpha_A : alpha 2 16 = 33 / 64 := by
  rw [alpha, sqrt_rho_two]; norm_num

lemma one_sub_theta_A : 1 - theta 2 16 = 33 / 64 := by
  rw [theta, alpha_A]; ring

lemma rho_plus_A : rho_plus 2 18 = 131073 / 524288 := by
  rw [rho_plus, H, D, H, rho]; norm_num

lemma sqrt_rho_plus_A_lo : (5000019/10^7 : ℝ) ≤ Real.sqrt (rho_plus 2 18) := by
  rw [rho_plus_A]; exact Real.le_sqrt_of_sq_le (by norm_num)

lemma sqrt_rho_plus_A_hi : Real.sqrt (rho_plus 2 18) ≤ 5000020/10^7 := by
  rw [rho_plus_A, Real.sqrt_le_left (by norm_num)]; norm_num

lemma m_plus_A : m_plus 2 18 16 = 17 := by
  have h1 := sqrt_rho_plus_A_lo
  have h2 := sqrt_rho_plus_A_hi
  set s := Real.sqrt (rho_plus 2 18) with hs
  have hs0 : (0:ℝ) < s := lt_of_lt_of_le (by norm_num) h1
  have hpos : (0:ℝ) < 33 - 64 * s := by nlinarith
  rw [m_plus, alpha_A, ← hs]
  have hkey : 1 / (2 * ((33:ℝ)/64 / s - 1)) = 32 * s / (33 - 64 * s) := by
    field_simp
    ring
  rw [hkey, Int.ceil_eq_iff]
  constructor
  · push_cast
    rw [lt_div_iff₀ hpos]
    nlinarith
  · push_cast
    rw [div_le_iff₀ hpos]
    nlinarith

lemma L_plus_A_lo : (349998/10^4 : ℝ) ≤ L_plus 2 18 16 := by
  have h2 := sqrt_rho_plus_A_hi
  have h1 := sqrt_rho_plus_A_lo
  have hs0 : (0:ℝ) < Real.sqrt (rho_plus 2 18) := lt_of_lt_of_le (by norm_num) h1
  rw [L_plus, m_plus_A]
  rw [le_div_iff₀ hs0]
  push_cast
  nlinarith

lemma L_plus_A_hi : L_plus 2 18 16 ≤ 35 := by
  have h1 := sqrt_rho_plus_A_lo
  have hs0 : (0:ℝ) < Real.sqrt (rho_plus 2 18) := lt_of_lt_of_le (by norm_num) h1
  rw [L_plus, m_plus_A]
  rw [div_le_iff₀ hs0]
  push_cast
  nlinarith

lemma floor_A : (⌊(((18:ℕ):ℝ) + 2) / 4 - 2⌋ : ℤ) = 3 := by
  rw [show (((18:ℕ):ℝ) + 2) / 4 - 2 = ((3:ℤ):ℝ) by push_cast; norm_num]
  exact Int.floor_intCast 3

lemma e_FRI_constant_A_bounds :
    (1092779404/2^80 : ℝ) ≤ e_FRI_constant 2 18 4 (2^32-2^27+1) 274 16 ∧
    e_FRI_constant 2 18 4 (2^32-2^27+1) 274 16 ≤ 1092779406/2^80 := by
  rw [e_FRI_constant, e_proximity_gap, e_fold, sqrt_rho_two, rho_two_rpow, floor_A,
    L, D, H, rho, F]
  push_cast
  constructor <;> norm_num

lemma e_FRI_queries_A_bounds :
    (1250368305/2^78 : ℝ) ≤ e_FRI_queries 2 16 50 ∧
    e_FRI_queries 2 16 50 ≤ 1250368307/2^78 := by
  rw [e_FRI_queries, one_sub_theta_A]
  constructor <;> norm_num

lemma e_ALI_A_bounds :
    (1427181440/2^145 : ℝ) ≤ e_ALI 2 18 4 (2^32-2^27+1) 274 16 ∧
    e_ALI 2 18 4 (2^32-2^27+1) 274 16 ≤ 1427189597/2^145 := by
  have hL1 := L_plus_A_lo
  have hL2 := L_plus_A_hi
  rw [e_ALI, F]
  constructor
  · calc (1427181440/2^145 : ℝ)
        ≤ (349998/10^4) * ((274:ℕ):ℝ) / (((2^32-2^27+1:ℕ)):ℝ)^4 := by push_cast; norm_num
      _ ≤ L_plus 2 18 16 * ((274:ℕ):ℝ) / (((2^32-2^27+1:ℕ)):ℝ)^4 := by
          gcongr
  · calc L_plus 2 18 16 * ((274:ℕ):ℝ) / (((2^32-2^27+1:ℕ)):ℝ)^4
        ≤ 35 * ((274:ℕ):ℝ) / (((2^32-2^27+1:ℕ)):ℝ)^4 := by
          gcongr
      _ ≤ (1427189597/2^145 : ℝ) := by push_cast; norm_num

lemma e_DEEP_A_bounds :
    (1666785059/2^133 : ℝ) ≤ e_DEEP 2 18 4 (2^32-2^27+1) 16 ∧
    e_DEEP 2 18 4 (2^32-2^27+1) 16 ≤ 1666794585/2^133 := by
  have hL1 := L_plus_A_lo
  have hL2 := L_plus_A_hi
  rw [e_DEEP, F, D, H, rho]
  constructor
  · calc (1666785059/2^133 : ℝ)
        ≤ (349998/10^4) * (4 * ((2:ℝ)^18 + 1) + ((2:ℝ)^18 - 1)) /
            ((((2^32-2^27+1:ℕ)):ℝ)^4 - (2:ℝ)^18 - (2:ℝ)^18 / (1 / 2^2)) := by
          push_cast; norm_num
      _ ≤ L_plus 2 18 16 * (4 * ((2:ℝ)^18 + 1) + ((2:ℝ)^18 - 1)) /
            ((((2^32-2^27+1:ℕ)):ℝ)^4 - (2:ℝ)^18 - (2:ℝ)^18 / (1 / 2^2)) := by
          gcongr
  · calc L_plus 2 18 16 * (4 * ((2:ℝ)^18 + 1) + ((2:ℝ)^18 - 1)) /
            ((((2^32-2^27+1:ℕ)):ℝ)^4 - (2:ℝ)^18 - (2:ℝ)^18 / (1 / 2^2))
        ≤ 35 * (4 * ((2:ℝ)^18 + 1) + ((2:ℝ)^18 - 1)) /
            ((((2^32-2^27+1:ℕ)):ℝ)^4 - (2:ℝ)^18 - (2:ℝ)^18 / (1 / 2^2)) := by
          gcongr
      _ ≤ (1666794585/2^133 : ℝ) := by push_cast; norm_num

lemma e_PLONK_A_bounds :
    (1523922988/2^136 : ℝ) ≤ e_PLONK 18 4 (2^32-2^27+1) ∧
    e_PLONK 18 4 (2^32-2^27+1) ≤ 1523922990/2^136 := by
  rw [e_PLONK, H, F]
  push_cast
  constructor <;> norm_num

lemma e_PLOOKUP_A_bounds :
    (1142942241/2^134 : ℝ) ≤ e_PLOOKUP 18 4 (2^32-2^27+1) ∧
    e_PLOOKUP 18 4 (2^32-2^27+1) ≤ 1142942243/2^134 := by
  rw [e_PLOOKUP, H, F]
  push_cast
  constructor <;> norm_num

lemma e_IOP_A_bounds :
    (1523563156/2^78 : ℝ) ≤ e_IOP 2 18 4 (2^32-2^27+1) 274 50 16 ∧
    e_IOP 2 18 4 (2^32-2^27+1) 274 50 16 ≤ 1523563159/2^78 := by
  obtain ⟨h1, h2⟩ := e_FRI_constant_A_bounds
  obtain ⟨h3, h4⟩ := e_FRI_queries_A_bounds
  obtain ⟨h5, h6⟩ := e_ALI_A_bounds
  obtain ⟨h7, h8⟩ := e_DEEP_A_bounds
  obtain ⟨h9, h10⟩ := e_PLONK_A_bounds
  obtain ⟨h11, h12⟩ := e_PLOOKUP_A_bounds
  rw [e_IOP, e_FRI]
  constructor <;> linarith

end Provable

namespace UDR

lemma alpha_U : alpha 2 = 5 / 8 := by rw [alpha, rho]; norm_num

lemma theta_U : theta 2 = 3 / 8 := by rw [theta, alpha_U]; norm_num

lemma rho_plus_U : rho_plus 2 20 = 524289 / 2097152 := by
  rw [rho_plus, H, D, H, rho]; norm_num

lemma sqrt_rho_plus_U_lo : (50000047/10^8 : ℝ) ≤ Real.sqrt (rho_plus 2 20) := by
  rw [rho_plus_U]; exact Real.le_sqrt_of_sq_le (by norm_num)

lemma sqrt_rho_plus_U_hi : Real.sqrt (rho_plus 2 20) ≤ 50000048/10^8 := by
  rw [rho_plus_U, Real.sqrt_le_left (by norm_num)]; norm_num

lemma m_plus_U : m_plus 2 20 = 3 := by
  have h1 := sqrt_rho_plus_U_lo
  have h2 := sqrt_rho_plus_U_hi
  set s := Real.sqrt (rho_plus 2 20) with hs
  have hs0 : (0:ℝ) < s := lt_of_lt_of_le (by norm_num) h1
  have hpos : (0:ℝ) < 5 - 8 * s := by nlinarith
  rw [m_plus, alpha_U, ← hs]
  have hkey : 1 / (2 * ((5:ℝ)/8 / s - 1)) = 4 * s / (5 - 8 * s) := by
    field_simp
    ring
  rw [hkey, Int.ceil_eq_iff]
  constructor
  · push_cast
    rw [lt_div_iff₀ hpos]
    nlinarith
  · push_cast
    rw [div_le_iff₀ hpos]
    nlinarith

lemma e_IOP_C_bounds :
    (1511874004/2^128 : ℝ) ≤ e_IOP 2 20 4 (2^32-2^27+1) 274 150 ∧
    e_IOP 2 20 4 (2^32-2^27+1) 274 150 ≤ 1511874006/2^128 := by
  rw [e_IOP, e_FRI_constant, e_proximity_gap, e_FRI_queries, theta_U, e_ALI, e_DEEP,
    L_plus, L, D, H, rho, F]
  push_cast
  rw [e_PLONK, e_PLOOKUP, H, F]
  push_cast
  constructor <;> norm_num

end UDR

namespace Conjectured

lemma theta_B : theta 2 (1/20) = 7/10 := by
  rw [theta, Provable.rho_two]; norm_num

lemma epsilon_plus_B : epsilon_plus 2 18 (1/20) = 131067/2621440 := by
  rw [epsilon_plus, Provable.rho_plus_A, theta_B]; norm_num

lemma L_plus_B : L_plus 2 18 (1/20) 1 = 20972321 := by
  rw [L_plus, epsilon_plus_B, Provable.D, Provable.H, Provable.rho, pow_one,
    Int.ceil_eq_iff]
  constructor
  · push_cast; norm_num
  · push_cast; norm_num

lemma e_FRI_constant_B_bounds :
    (1794790441/2^116 : ℝ) ≤ e_FRI_constant 2 18 4 (2^32-2^27+1) 274 16 (1/20) 1 1 ∧
    e_FRI_constant 2 18 4 (2^32-2^27+1) 274 16 (1/20) 1 1 ≤ 1794790443/2^116 := by
  rw [e_FRI_constant, e_proximity_gap, Provable.e_fold, Provable.sqrt_rho_two,
    Provable.floor_A, Provable.L, Provable.D, Provable.H, Provable.rho, Provable.F]
  push_cast
  constructor <;> norm_num

lemma e_FRI_queries_B_bounds :
    (1192812629/2^117 : ℝ) ≤ e_FRI_queries 2 50 (1/20) ∧
    e_FRI_queries 2 50 (1/20) ≤ 1192812631/2^117 := by
  rw [e_FRI_queries, theta_B]
  constructor <;> norm_num

lemma e_ALI_B_bounds :
    (1631136121/2^126 : ℝ) ≤ e_ALI 2 18 4 (2^32-2^27+1) 274 (1/20) 1 ∧
    e_ALI 2 18 4 (2^32-2^27+1) 274 (1/20) 1 ≤ 1631136123/2^126 := by
  rw [e_ALI, L_plus_B, Provable.F]
  push_cast
  constructor <;> norm_num

lemma e_DEEP_B_bounds :
    (1904980852/2^114 : ℝ) ≤ e_DEEP 2 18 4 (2^32-2^27+1) (1/20) 1 ∧
    e_DEEP 2 18 4 (2^32-2^27+1) (1/20) 1 ≤ 1904980854/2^114 := by
  rw [e_DEEP, L_plus_B, Provable.F, Provable.D, Provable.H, Provable.rho]
  push_cast
  constructor <;> norm_num

lemma e_IOP_B_bounds :
    (1251589860/2^113 : ℝ) ≤ e_IOP 2 18 4 (2^32-2^27+1) 274 50 16 (1/20) 1 1 1 ∧
    e_IOP 2 18 4 (2^32-2^27+1) 274 50 16 (1/20) 1 1 1 ≤ 1251589862/2^113 := by
  obtain ⟨h1, h2⟩ := e_FRI_constant_B_bounds
  obtain ⟨h3, h4⟩ := e_FRI_queries_B_bounds
  obtain ⟨h5, h6⟩ := e_ALI_B_bounds
  obtain ⟨h7, h8⟩ := e_DEEP_B_bounds
  obtain ⟨h9, h10⟩ := Provable.e_PLONK_A_bounds
  obtain ⟨h11, h12⟩ := Provable.e_PLOOKUP_A_bounds
  have hP : e_PLONK 18 4 (2^32-2^27+1) = Provable.e_PLONK 18 4 (2^32-2^27+1) := rfl
  have hQ : e_PLOOKUP 18 4 (2^32-2^27+1) = Provable.e_PLOOKUP 18 4 (2^32-2^27+1) := rfl
  rw [e_IOP, hP, hQ]
  constructor <;> linarith

end Conjectured

/-- C8: end-to-end scenario B (ListDecodingConjectured): with the scenario A
base parameters (`k=2, h=18, e=4, p=2^32-2^27+1, C=274, s=50`, reusing `m=16`
in the folding term) and `ε=0.05, c1=c2=C_rho=1`, the total satisfies
`bits ≈ 82.779`, with `FRI_CONSTANT ≈ -85.259`, `FRI_QUERIES ≈ -86.848`,
`ALI ≈ -95.397`, `DEEP ≈ -83.173` (each within `±0.01`), and PLONK and
PLOOKUP unchanged from scenario A. -/
theorem c8_scenarioB :
    |Conjectured.bits 2 18 4 (2^32-2^27+1) 274 50 16 (1/20) 1 1 1 - 82.779| ≤ 0.01 ∧
    |Real.logb 2 (Conjectured.e_FRI_constant 2 18 4 (2^32-2^27+1) 274 16 (1/20) 1 1) + 85.259| ≤ 0.01 ∧
    |Real.logb 2 (Conjectured.e_FRI_queries 2 50 (1/20)) + 86.848| ≤ 0.01 ∧
    |Real.logb 2 (Conjectured.e_ALI 2 18 4 (2^32-2^27+1) 274 (1/20) 1) + 95.397| ≤ 0.01 ∧
    |Real.logb 2 (Conjectured.e_DEEP 2 18 4 (2^32-2^27+1) (1/20) 1) + 83.173| ≤ 0.01 ∧
    Conjectured.e_PLONK 18 4 (2^32-2^27+1) = Provable.e_PLONK 18 4 (2^32-2^27+1) ∧
    Conjectured.e_PLOOKUP 18 4 (2^32-2^27+1) = Provable.e_PLOOKUP 18 4 (2^32-2^27+1) := by
  refine ⟨?_, ?_, ?_, ?_, ?_, rfl, rfl⟩
  · obtain ⟨hl, hr⟩ := Conjectured.e_IOP_B_bounds
    rw [Conjectured.bits,
      show -Real.logb 2 (Conjectured.e_IOP 2 18 4 (2^32-2^27+1) 274 50 16 (1/20) 1 1 1) - 82.779 =
        -(Real.logb 2 (Conjectured.e_IOP 2 18 4 (2^32-2^27+1) 274 50 16 (1/20) 1 1 1) + 82.779) by ring,
      abs_neg]
    exact abs_logb_add_le (n := 1000) (a := 82769) (b := 82789) (by norm_num) hl hr
      (by norm_num) (by norm_num) (by norm_num) (by norm_num) (by norm_num)
  · obtain ⟨hl, hr⟩ := Conjectured.e_FRI_constant_B_bounds
    exact abs_logb_add_le (n := 1000) (a := 85249) (b := 85269) (by norm_num) hl hr
      (by norm_num) (by norm_num) (by norm_num) (by norm_num) (by norm_num)
  · obtain ⟨hl, hr⟩ := Conjectured.e_FRI_queries_B_bounds
    exact abs_logb_add_le (n := 1000) (a := 86838) (b := 86858) (by norm_num) hl hr
      (by norm_num) (by norm_num) (by norm_num) (by norm_num) (by norm_num)
  · obtain ⟨hl, hr⟩ := Conjectured.e_ALI_B_bounds
    exact abs_logb_add_le (n := 1000) (a := 95387) (b := 95407) (by norm_num) hl hr
      (by norm_num) (by norm_num) (by norm_num) (by norm_num) (by norm_num)
  · obtain ⟨hl, hr⟩ := Conjectured.e_DEEP_B_bounds
    exact abs_logb_add_le (n := 1000) (a := 83163) (b := 83183) (by norm_num) hl hr
      (by norm_num) (by norm_num) (by norm_num) (by norm_num) (by norm_num)

/-- C1: end-to-end scenario A (ListDecodingProvable): with `k=2, h=18, e=4,
`p=2^32-2^27+1`, `C=274` (so `L=278`), `s=50`, Johnson parameter `m=16`, the
total satisfies `bits = -log2 e_IOP ≈ 47.495 (±0.01)` and the per-term log2
probabilities are `FRI_CONSTANT ≈ -49.975`, `FRI_QUERIES ≈ -47.780`,
`ALI ≈ -114.589`, `DEEP ≈ -102.366`, `PLONK ≈ -105.495`,
`PLOOKUP ≈ -103.910` (each within `±0.01`). -/
theorem c1_scenarioA :
    |Provable.bits 2 18 4 (2^32-2^27+1) 274 50 16 - 47.495| ≤ 0.01 ∧
    |Real.logb 2 (Provable.e_FRI_constant 2 18 4 (2^32-2^27+1) 274 16) + 49.975| ≤ 0.01 ∧
    |Real.logb 2 (Provable.e_FRI_queries 2 16 50) + 47.780| ≤ 0.01 ∧
    |Real.logb 2 (Provable.e_ALI 2 18 4 (2^32-2^27+1) 274 16) + 114.589| ≤ 0.01 ∧
    |Real.logb 2 (Provable.e_DEEP 2 18 4 (2^32-2^27+1) 16) + 102.366| ≤ 0.01 ∧
    |Real.logb 2 (Provable.e_PLONK 18 4 (2^32-2^27+1)) + 105.495| ≤ 0.01 ∧
    |Real.logb 2 (Provable.e_PLOOKUP 18 4 (2^32-2^27+1)) + 103.910| ≤ 0.01 := by
  refine ⟨?_, ?_, ?_, ?_, ?_, ?_, ?_⟩
  · obtain ⟨hl, hr⟩ := Provable.e_IOP_A_bounds
    rw [Provable.bits,
      show -Real.logb 2 (Provable.e_IOP 2 18 4 (2^32-2^27+1) 274 50 16) - 47.495 =
        -(Real.logb 2 (Provable.e_IOP 2 18 4 (2^32-2^27+1) 274 50 16) + 47.495) by ring,
      abs_neg]
    exact abs_logb_add_le (n := 1000) (a := 47485) (b := 47505) (by norm_num) hl hr
      (by norm_num) (by norm_num) (by norm_num) (by norm_num) (by norm_num)
  · obtain ⟨hl, hr⟩ := Provable.e_FRI_constant_A_bounds
    exact abs_logb_add_le (n := 1000) (a := 49965) (b := 49985) (by norm_num) hl hr
      (by norm_num) (by norm_num) (by norm_num) (by norm_num) (by norm_num)
  · obtain ⟨hl, hr⟩ := Provable.e_FRI_queries_A_bounds
    exact abs_logb_add_le (n := 1000) (a := 47770) (b := 47790) (by norm_num) hl hr
      (by norm_num) (by norm_num) (by norm_num) (by norm_num) (by norm_num)
  · obtain ⟨hl, hr⟩ := Provable.e_ALI_A_bounds
    exact abs_logb_add_le (n := 1000) (a := 114579) (b := 114599) (by norm_num) hl hr
      (by norm_num) (by norm_num) (by norm_num) (by norm_num) (by norm_num)
  · obtain ⟨hl, hr⟩ := Provable.e_DEEP_A_bounds
    exact abs_logb_add_le (n := 1000) (a := 102356) (b := 102376) (by norm_num) hl hr
      (by norm_num) (by norm_num) (by norm_num) (by norm_num) (by norm_num)
  · obtain ⟨hl, hr⟩ := Provable.e_PLONK_A_bounds
    exact abs_logb_add_le (n := 1000) (a := 105485) (b := 105505) (by norm_num) hl hr
      (by norm_num) (by norm_num) (by norm_num) (by norm_num) (by norm_num)
  · obtain ⟨hl, hr⟩ := Provable.e_PLOOKUP_A_bounds
    exact abs_logb_add_le (n := 1000) (a := 103900) (b := 103920) (by norm_num) hl hr
      (by norm_num) (by norm_num) (by norm_num) (by norm_num) (by norm_num)

/-- C4 (counterexample): for the UniqueDecoding notebook's stored parameters
`k=2, h=20, e=4, p=2^32-2^27+1, C=274, s=150`, the computed total is below 98
bits, so it is not `≈ 99.289` as claimed (the stored 99.289 output is stale:
it corresponds to `h=18`, not the `h=20` in the saved constants cell). -/
theorem c4_counterexample :
    UDR.bits 2 20 4 (2^32-2^27+1) 274 150 < 98 := by
  obtain ⟨hl, hr⟩ := UDR.e_IOP_C_bounds
  have h := (logb2_interval (n := 1000) (a := 97496) (b := 97516)
    (by norm_num) hl hr (by norm_num) (by norm_num) (by norm_num)).1
  rw [show (((97516:ℕ)):ℝ) / (((1000:ℕ)):ℝ) = 97516 / 1000 by norm_num] at h
  rw [UDR.bits]
  exact lt_of_le_of_lt (neg_le.mp h) (by norm_num)

/-- C4 (amended): for the UniqueDecoding regime with the notebook's stored
parameters `k=2, h=20, e=4, p=2^32-2^27+1, C=274, s=150`, the computed total
satisfies `bits = -log2 e_IOP ≈ 97.506` (within `±0.01`). -/
theorem c4_scenarioC_amended :
    |UDR.bits 2 20 4 (2^32-2^27+1) 274 150 - 97.506| ≤ 0.01 := by
  obtain ⟨hl, hr⟩ := UDR.e_IOP_C_bounds
  rw [UDR.bits,
    show -Real.logb 2 (UDR.e_IOP 2 20 4 (2^32-2^27+1) 274 150) - 97.506 =
      -(Real.logb 2 (UDR.e_IOP 2 20 4 (2^32-2^27+1) 274 150) + 97.506) by ring,
    abs_neg]
  exact abs_logb_add_le (n := 1000) (a := 97496) (b := 97516) (by norm_num) hl hr
    (by norm_num) (by norm_num) (by norm_num) (by norm_num) (by norm_num)

/-- C10: the UniqueDecoding notebook still enforces the provable-regime
Johnson conditions: it asserts `θ < 1 - √ρ⁺`, computes
`m⁺ = ⌈1/(2(α/√ρ⁺-1))⌉ = 3`, and asserts `θ ≤ 1 - √ρ⁺(1+1/(2m⁺))`; for
the file's parameters (`ρ = 1/4`, `θ = (1-ρ)/2`) both assertions hold, so
the run reaches its report `e_IOP` (in which `m⁺` is not used). -/
theorem c10_udr_asserts :
    UDR.theta 2 < 1 - Real.sqrt (UDR.rho_plus 2 20) ∧
    UDR.m_plus 2 20 = 3 ∧
    UDR.theta 2 ≤ 1 - Real.sqrt (UDR.rho_plus 2 20) * (1 + 1 / (2 * ((UDR.m_plus 2 20 : ℤ) : ℝ))) ∧
    UDR.run 2 20 4 (2^32-2^27+1) 274 150 = .ok (UDR.e_IOP 2 20 4 (2^32-2^27+1) 274 150) := by
  have h1 := UDR.sqrt_rho_plus_U_lo
  have h2 := UDR.sqrt_rho_plus_U_hi
  have ha1 : UDR.theta 2 < 1 - Real.sqrt (UDR.rho_plus 2 20) := by
    rw [UDR.theta_U]; linarith
  have ha2 : UDR.theta 2 ≤
      1 - Real.sqrt (UDR.rho_plus 2 20) * (1 + 1 / (2 * ((UDR.m_plus 2 20 : ℤ) : ℝ))) := by
    rw [UDR.theta_U, UDR.m_plus_U]
    push_cast
    nlinarith
  refine ⟨ha1, UDR.m_plus_U, ha2, ?_⟩
  rw [UDR.run, if_pos ha1, if_pos ha2]

set_option maxRecDepth 8000 in
/-- C3 (counterexample): the notebooks store `F = math.pow(p, e)` as a
double-precision float; for `p = 2^32-2^27+1` and `e = 4` the value actually
stored (the nearest double, `F_float`) is strictly below the exact integer
`p^4`, so `F` is not computed without precision loss. -/
theorem c3_counterexample :
    F_float (2^32-2^27+1) 4 < (2^32-2^27+1)^4 := by decide

set_option maxRecDepth 8000 in
/-- C3 (amended): `F` is computed in double-precision floating point: the
value used is the rounding of `p^e` to the nearest IEEE-754 double, which for
`p = 2^32-2^27+1`, `e = 4` equals `299699699481304781882622373227978031104`,
differs from the exact 129-bit integer `p^4`, and carries a rounding error of
at most half an ulp (`2^75`), i.e. a relative error below `2^-52`. -/
theorem c3_float_F :
    F_float (2^32-2^27+1) 4 = 299699699481304781882622373227978031104 ∧
    (2^32-2^27+1)^4 - F_float (2^32-2^27+1) 4 ≤ 2^75 ∧
    ((2^32-2^27+1)^4 - F_float (2^32-2^27+1) 4) * 2^52 < (2^32-2^27+1)^4 := by
  exact ⟨by decide, by decide, by decide⟩

/-- C2: for every rate `ρ ∈ (0,1)`, effective rate `ρ⁺ ∈ (0,1)` and integer
`m ≥ 1`, with `α = (1+1/(2m))·√ρ` and `θ = 1-α` satisfying `θ < 1-√ρ⁺`, the
closed form `m⁺ = ⌈1/(2(α/√ρ⁺-1))⌉` is the least integer `j ≥ 1` satisfying
the Johnson bound `θ ≤ 1-√ρ⁺(1+1/(2j))`, and every smaller integer `j ≥ 1`
fails the bound. -/
theorem c2_mPlus_minimal (ρ ρplus : ℝ) (m : ℕ) (hr0 : 0 < ρ) (hr1 : ρ < 1)
    (hp0 : 0 < ρplus) (hp1 : ρplus < 1) (hm : 1 ≤ m)
    (hθ : 1 - (1 + 1 / (2 * (m:ℝ))) * Real.sqrt ρ < 1 - Real.sqrt ρplus) :
    IsLeast {j : ℤ | 1 ≤ j ∧
        johnsonBound (1 - (1 + 1 / (2 * (m:ℝ))) * Real.sqrt ρ) ρplus j}
      (mPlusFormula ((1 + 1 / (2 * (m:ℝ))) * Real.sqrt ρ) ρplus) ∧
    ∀ j : ℤ, 1 ≤ j → j < mPlusFormula ((1 + 1 / (2 * (m:ℝ))) * Real.sqrt ρ) ρplus →
      ¬ johnsonBound (1 - (1 + 1 / (2 * (m:ℝ))) * Real.sqrt ρ) ρplus j := by
  set α := (1 + 1 / (2 * (m:ℝ))) * Real.sqrt ρ with hα
  set s := Real.sqrt ρplus with hs
  have hs0 : 0 < s := Real.sqrt_pos.2 hp0
  have hsα : s < α := by linarith
  have hαs : (0:ℝ) < α - s := by linarith
  have hx0 : (0:ℝ) < s / (2 * (α - s)) := by positivity
  have hd : α / s - 1 = (α - s) / s := by field_simp
  have hxeq : 1 / (2 * (α / s - 1)) = s / (2 * (α - s)) := by
    rw [hd]
    rw [div_eq_div_iff (by positivity) (by positivity)]
    field_simp
  have hform : mPlusFormula α ρplus = ⌈s / (2 * (α - s))⌉ := by
    unfold mPlusFormula
    rw [← hs, hxeq]
  have hbnd : ∀ j : ℤ, 1 ≤ j →
      (johnsonBound (1 - α) ρplus j ↔ s / (2 * (α - s)) ≤ (j:ℝ)) := by
    intro j hj
    have hj0 : (0:ℝ) < (j:ℝ) := by exact_mod_cast lt_of_lt_of_le Int.zero_lt_one hj
    have h2j : (0:ℝ) < 2 * (j:ℝ) := by linarith
    simp only [johnsonBound, ← hs]
    have hexp : s * (1 + 1/(2*(j:ℝ))) = s + s/(2*(j:ℝ)) := by ring
    constructor
    · intro h
      have h1 : s * (1 + 1/(2*(j:ℝ))) ≤ α := by linarith
      rw [hexp] at h1
      have h3 : s / (2*(j:ℝ)) ≤ α - s := by linarith
      have h4 : s ≤ (α - s) * (2*(j:ℝ)) := (div_le_iff₀ h2j).1 h3
      rw [div_le_iff₀ (by linarith : (0:ℝ) < 2*(α - s))]
      nlinarith
    · intro h
      rw [div_le_iff₀ (by linarith : (0:ℝ) < 2*(α - s))] at h
      have h3 : s / (2*(j:ℝ)) ≤ α - s := (div_le_iff₀ h2j).2 (by nlinarith)
      have h1 : s * (1 + 1/(2*(j:ℝ))) ≤ α := by rw [hexp]; linarith
      linarith
  have hceil1 : 1 ≤ mPlusFormula α ρplus := by
    rw [hform]
    have := Int.ceil_pos.mpr hx0
    omega
  refine ⟨⟨⟨hceil1, ?_⟩, ?_⟩, ?_⟩
  · rw [hform]
    exact (hbnd ⌈s / (2 * (α - s))⌉ (by rw [hform] at hceil1; exact hceil1)).2 (Int.le_ceil _)
  · rintro j ⟨hj1, hjb⟩
    rw [hform]
    exact Int.ceil_le.2 ((hbnd j hj1).1 hjb)
  · intro j hj1 hjlt hb
    have hxj := (hbnd j hj1).1 hb
    rw [hform] at hjlt
    have := Int.lt_ceil.1 hjlt
    linarith

/-- C2 (witness): the hypotheses of `c2_mPlus_minimal` hold and its conclusion
follows at the notebook's own parameters `ρ = 1/4`, `ρ⁺ = 131073/524288`
(the value of `(H+2)/D` at `h = 18`), `m = 16`. -/
theorem c2_mPlus_minimal_witness :
    ((0:ℝ) < 1/4 ∧ (1/4:ℝ) < 1 ∧ (0:ℝ) < 131073/524288 ∧ (131073/524288:ℝ) < 1 ∧
      1 ≤ 16 ∧
      1 - (1 + 1 / (2 * ((16:ℕ):ℝ))) * Real.sqrt (1/4) < 1 - Real.sqrt (131073/524288)) ∧
    (IsLeast {j : ℤ | 1 ≤ j ∧
        johnsonBound (1 - (1 + 1 / (2 * ((16:ℕ):ℝ))) * Real.sqrt (1/4)) (131073/524288) j}
      (mPlusFormula ((1 + 1 / (2 * ((16:ℕ):ℝ))) * Real.sqrt (1/4)) (131073/524288)) ∧
    ∀ j : ℤ, 1 ≤ j →
      j < mPlusFormula ((1 + 1 / (2 * ((16:ℕ):ℝ))) * Real.sqrt (1/4)) (131073/524288) →
      ¬ johnsonBound (1 - (1 + 1 / (2 * ((16:ℕ):ℝ))) * Real.sqrt (1/4)) (131073/524288) j) := by
  have h14 : Real.sqrt ((1:ℝ)/4) = 1/2 := by
    rw [show (1/4:ℝ) = (1/2)^2 by norm_num, Real.sqrt_sq (by norm_num)]
  have hub : Real.sqrt ((131073:ℝ)/524288) < 33/64 :=
    (Real.sqrt_lt' (by norm_num)).2 (by norm_num)
  have hθ : 1 - (1 + 1 / (2 * ((16:ℕ):ℝ))) * Real.sqrt (1/4) <
      1 - Real.sqrt (131073/524288) := by
    rw [h14]
    push_cast
    linarith
  exact ⟨⟨by norm_num, by norm_num, by norm_num, by norm_num, by norm_num, hθ⟩,
    c2_mPlus_minimal (1/4) (131073/524288) 16 (by norm_num) (by norm_num)
      (by norm_num) (by norm_num) (by norm_num) hθ⟩

/-- C5: in the ListDecodingProvable regime, any candidate proximity parameter
with `θ ≥ 1-√ρ⁺` makes the feasibility check fail: `validate` returns the
`ConstraintViolation` error naming the regime and the computed margin, and
the full computation `run` likewise errors and never returns a report. -/
theorem c5_constraint_enforcement :
    (∀ k h : ℕ, ∀ θ : ℝ, 1 - Real.sqrt (Provable.rho_plus k h) ≤ θ →
      Provable.validate k h θ =
        .error ⟨.ListDecodingProvable, (1 - Real.sqrt (Provable.rho_plus k h)) - θ⟩) ∧
    (∀ k h e p C s m : ℕ, 1 - Real.sqrt (Provable.rho_plus k h) ≤ Provable.theta k m →
      Provable.run k h e p C s m =
        .error ⟨.ListDecodingProvable,
          (1 - Real.sqrt (Provable.rho_plus k h)) - Provable.theta k m⟩) := by
  constructor
  · intro k h θ hθ
    rw [Provable.validate, if_neg (not_lt.2 hθ)]
  · intro k h e p C s m hθ
    have hv : Provable.validate k h (Provable.theta k m) =
        .error ⟨.ListDecodingProvable,
          (1 - Real.sqrt (Provable.rho_plus k h)) - Provable.theta k m⟩ := by
      rw [Provable.validate, if_neg (not_lt.2 hθ)]
    simp only [Provable.run, hv]

/-- C5 (witness): at `k=2, h=18` the candidate `θ = 1/2` and the candidate
derived from the Johnson parameter `m = 1000000` both violate `θ < 1-√ρ⁺`,
and `validate`/`run` return the corresponding `ConstraintViolation`. -/
theorem c5_constraint_enforcement_witness :
    (1 - Real.sqrt (Provable.rho_plus 2 18) ≤ 1/2 ∧
      1 - Real.sqrt (Provable.rho_plus 2 18) ≤ Provable.theta 2 1000000) ∧
    (Provable.validate 2 18 (1/2) =
      .error ⟨.ListDecodingProvable, (1 - Real.sqrt (Provable.rho_plus 2 18)) - 1/2⟩ ∧
    Provable.run 2 18 4 (2^32-2^27+1) 274 50 1000000 =
      .error ⟨.ListDecodingProvable,
        (1 - Real.sqrt (Provable.rho_plus 2 18)) - Provable.theta 2 1000000⟩) := by
  have h1 : 1 - Real.sqrt (Provable.rho_plus 2 18) ≤ 1/2 := by
    have : (1/2:ℝ) ≤ Real.sqrt (Provable.rho_plus 2 18) :=
      (Real.le_sqrt' (by norm_num)).2 (by rw [Provable.rho_plus_A]; norm_num)
    linarith
  have h2 : 1 - Real.sqrt (Provable.rho_plus 2 18) ≤ Provable.theta 2 1000000 := by
    have hb : (2000001/4000000:ℝ) ≤ Real.sqrt (Provable.rho_plus 2 18) :=
      (Real.le_sqrt' (by norm_num)).2 (by rw [Provable.rho_plus_A]; norm_num)
    rw [Provable.theta, Provable.alpha, Provable.sqrt_rho_two]
    push_cast
    linarith
  exact ⟨⟨h1, h2⟩, c5_constraint_enforcement.1 2 18 (1/2) h1,
    c5_constraint_enforcement.2 2 18 4 (2^32-2^27+1) 274 50 1000000 h2⟩

/-- Strict decrease of `(1-θ)^s` in `s` for `0 < θ < 1`. -/
lemma queries_strict_anti {θ : ℝ} {s s' : ℕ} (h0 : 0 < θ) (h1 : θ < 1) (hss : s < s') :
    (1 - θ) ^ s' < (1 - θ) ^ s :=
  pow_lt_pow_right_of_lt_one₀ (by linarith) (by linarith) hss

/-- Strict increase of `-log2 (R + q)` when the query term `q` strictly
decreases and the remaining mass `R` is nonnegative. -/
lemma bits_strict_mono {R q q' : ℝ} (hR : 0 ≤ R) (hq : 0 < q') (hqq : q' < q) :
    -Real.logb 2 (R + q) < -Real.logb 2 (R + q') := by
  have := Real.logb_lt_logb (b := 2) one_lt_two
    (by linarith : (0:ℝ) < R + q') (by linarith : R + q' < R + q)
  linarith

/-- C6: in every regime, holding all other parameters fixed with `0 < θ < 1`,
increasing the query count `s` strictly decreases `FRI_QUERIES = (1-θ)^s`,
and (whenever the sum of the other five terms is nonnegative) strictly
increases the reported `bits = -log2 e_IOP`. -/
theorem c6_query_monotonicity (k h e p C m s s' c1 c2 Crho : ℕ) (ε : ℝ) (hss : s < s') :
    (0 < Provable.theta k m → Provable.theta k m < 1 →
      Provable.e_FRI_queries k m s' < Provable.e_FRI_queries k m s ∧
      (0 ≤ Provable.rest k h e p C m →
        Provable.bits k h e p C s m < Provable.bits k h e p C s' m)) ∧
    (0 < UDR.theta k → UDR.theta k < 1 →
      UDR.e_FRI_queries k s' < UDR.e_FRI_queries k s ∧
      (0 ≤ UDR.rest k h e p C →
        UDR.bits k h e p C s < UDR.bits k h e p C s')) ∧
    (0 < Conjectured.theta k ε → Conjectured.theta k ε < 1 →
      Conjectured.e_FRI_queries k s' ε < Conjectured.e_FRI_queries k s ε ∧
      (0 ≤ Conjectured.rest k h e p C m ε c1 c2 Crho →
        Conjectured.bits k h e p C s m ε c1 c2 Crho <
          Conjectured.bits k h e p C s' m ε c1 c2 Crho)) := by
  have hP : ∀ t : ℕ, Provable.e_IOP k h e p C t m =
      Provable.rest k h e p C m + Provable.e_FRI_queries k m t := by
    intro t
    rw [Provable.e_IOP, Provable.e_FRI, Provable.rest]
    ring
  have hU : ∀ t : ℕ, UDR.e_IOP k h e p C t =
      UDR.rest k h e p C + UDR.e_FRI_queries k t := by
    intro t
    rw [UDR.e_IOP, UDR.rest]
    ring
  have hC : ∀ t : ℕ, Conjectured.e_IOP k h e p C t m ε c1 c2 Crho =
      Conjectured.rest k h e p C m ε c1 c2 Crho + Conjectured.e_FRI_queries k t ε := by
    intro t
    rw [Conjectured.e_IOP, Conjectured.rest]
    ring
  refine ⟨fun h0 h1 => ?_, fun h0 h1 => ?_, fun h0 h1 => ?_⟩
  · have hqlt : Provable.e_FRI_queries k m s' < Provable.e_FRI_queries k m s := by
      rw [Provable.e_FRI_queries, Provable.e_FRI_queries]
      exact queries_strict_anti h0 h1 hss
    refine ⟨hqlt, fun hR => ?_⟩
    have hq' : 0 < Provable.e_FRI_queries k m s' := by
      rw [Provable.e_FRI_queries]
      exact pow_pos (by linarith) s'
    rw [Provable.bits, Provable.bits, hP s, hP s']
    exact bits_strict_mono hR hq' hqlt
  · have hqlt : UDR.e_FRI_queries k s' < UDR.e_FRI_queries k s := by
      rw [UDR.e_FRI_queries, UDR.e_FRI_queries]
      exact queries_strict_anti h0 h1 hss
    refine ⟨hqlt, fun hR => ?_⟩
    have hq' : 0 < UDR.e_FRI_queries k s' := by
      rw [UDR.e_FRI_queries]
      exact pow_pos (by linarith) s'
    rw [UDR.bits, UDR.bits, hU s, hU s']
    exact bits_strict_mono hR hq' hqlt
  · have hqlt : Conjectured.e_FRI_queries k s' ε < Conjectured.e_FRI_queries k s ε := by
      rw [Conjectured.e_FRI_queries, Conjectured.e_FRI_queries]
      exact queries_strict_anti h0 h1 hss
    refine ⟨hqlt, fun hR => ?_⟩
    have hq' : 0 < Conjectured.e_FRI_queries k s' ε := by
      rw [Conjectured.e_FRI_queries]
      exact pow_pos (by linarith) s'
    rw [Conjectured.bits, Conjectured.bits, hC s, hC s']
    exact bits_strict_mono hR hq' hqlt

/-- C6 (witness): at the scenario A/B parameters (`k=2, h=18, e=4,
`p=2^32-2^27+1, C=274, m=16, ε=1/20, c1=c2=C_rho=1`) all three regimes'
side conditions hold, and raising `s` from 50 to 51 strictly decreases
`FRI_QUERIES` and strictly increases `bits` in each regime. -/
theorem c6_query_monotonicity_witness :
    ((50 < 51 ∧
      (0 < Provable.theta 2 16 ∧ Provable.theta 2 16 < 1 ∧
        0 ≤ Provable.rest 2 18 4 (2^32-2^27+1) 274 16) ∧
      (0 < UDR.theta 2 ∧ UDR.theta 2 < 1 ∧ 0 ≤ UDR.rest 2 18 4 (2^32-2^27+1) 274) ∧
      (0 < Conjectured.theta 2 (1/20) ∧ Conjectured.theta 2 (1/20) < 1 ∧
        0 ≤ Conjectured.rest 2 18 4 (2^32-2^27+1) 274 16 (1/20) 1 1 1)) ∧
    ((Provable.e_FRI_queries 2 16 51 < Provable.e_FRI_queries 2 16 50 ∧
      Provable.bits 2 18 4 (2^32-2^27+1) 274 50 16 <
        Provable.bits 2 18 4 (2^32-2^27+1) 274 51 16) ∧
    (UDR.e_FRI_queries 2 51 < UDR.e_FRI_queries 2 50 ∧
      UDR.bits 2 18 4 (2^32-2^27+1) 274 50 < UDR.bits 2 18 4 (2^32-2^27+1) 274 51) ∧
    (Conjectured.e_FRI_queries 2 51 (1/20) < Conjectured.e_FRI_queries 2 50 (1/20) ∧
      Conjectured.bits 2 18 4 (2^32-2^27+1) 274 50 16 (1/20) 1 1 1 <
        Conjectured.bits 2 18 4 (2^32-2^27+1) 274 51 16 (1/20) 1 1 1))) := by
  have htP : Provable.theta 2 16 = 31/64 := by
    rw [Provable.theta, Provable.alpha_A]; norm_num
  have hP1 : 0 < Provable.theta 2 16 := by rw [htP]; norm_num
  have hP2 : Provable.theta 2 16 < 1 := by rw [htP]; norm_num
  have hP3 : 0 ≤ Provable.rest 2 18 4 (2^32-2^27+1) 274 16 := by
    obtain ⟨h1, _⟩ := Provable.e_FRI_constant_A_bounds
    obtain ⟨h5, _⟩ := Provable.e_ALI_A_bounds
    obtain ⟨h7, _⟩ := Provable.e_DEEP_A_bounds
    obtain ⟨h9, _⟩ := Provable.e_PLONK_A_bounds
    obtain ⟨h11, _⟩ := Provable.e_PLOOKUP_A_bounds
    rw [Provable.rest]
    have t1 := le_trans (by norm_num : (0:ℝ) ≤ 1092779404/2^80) h1
    have t2 := le_trans (by norm_num : (0:ℝ) ≤ 1427181440/2^145) h5
    have t3 := le_trans (by norm_num : (0:ℝ) ≤ 1666785059/2^133) h7
    have t4 := le_trans (by norm_num : (0:ℝ) ≤ 1523922988/2^136) h9
    have t5 := le_trans (by norm_num : (0:ℝ) ≤ 1142942241/2^134) h11
    exact add_nonneg (add_nonneg (add_nonneg (add_nonneg t1 t2) t3) t4) t5
  have hU1 : 0 < UDR.theta 2 := by rw [UDR.theta_U]; norm_num
  have hU2 : UDR.theta 2 < 1 := by rw [UDR.theta_U]; norm_num
  have hU3 : 0 ≤ UDR.rest 2 18 4 (2^32-2^27+1) 274 := by
    rw [UDR.rest, UDR.e_FRI_constant, UDR.e_proximity_gap, UDR.e_ALI, UDR.e_DEEP,
      UDR.L_plus, UDR.e_PLONK, UDR.e_PLOOKUP, UDR.L, UDR.D, UDR.H, UDR.rho, UDR.F]
    push_cast
    norm_num
  have hC1 : 0 < Conjectured.theta 2 (1/20) := by rw [Conjectured.theta_B]; norm_num
  have hC2 : Conjectured.theta 2 (1/20) < 1 := by rw [Conjectured.theta_B]; norm_num
  have hC3 : 0 ≤ Conjectured.rest 2 18 4 (2^32-2^27+1) 274 16 (1/20) 1 1 1 := by
    obtain ⟨h1, _⟩ := Conjectured.e_FRI_constant_B_bounds
    obtain ⟨h5, _⟩ := Conjectured.e_ALI_B_bounds
    obtain ⟨h7, _⟩ := Conjectured.e_DEEP_B_bounds
    obtain ⟨h9, _⟩ := Provable.e_PLONK_A_bounds
    obtain ⟨h11, _⟩ := Provable.e_PLOOKUP_A_bounds
    have hPeq : Conjectured.e_PLONK 18 4 (2^32-2^27+1) =
        Provable.e_PLONK 18 4 (2^32-2^27+1) := rfl
    have hQeq : Conjectured.e_PLOOKUP 18 4 (2^32-2^27+1) =
        Provable.e_PLOOKUP 18 4 (2^32-2^27+1) := rfl
    rw [Conjectured.rest, hPeq, hQeq]
    have t1 := le_trans (by norm_num : (0:ℝ) ≤ 1794790441/2^116) h1
    have t2 := le_trans (by norm_num : (0:ℝ) ≤ 1631136121/2^126) h5
    have t3 := le_trans (by norm_num : (0:ℝ) ≤ 1904980852/2^114) h7
    have t4 := le_trans (by norm_num : (0:ℝ) ≤ 1523922988/2^136) h9
    have t5 := le_trans (by norm_num : (0:ℝ) ≤ 1142942241/2^134) h11
    exact add_nonneg (add_nonneg (add_nonneg (add_nonneg t1 t2) t3) t4) t5
  obtain ⟨cP, cU, cC⟩ :=
    c6_query_monotonicity 2 18 4 (2^32-2^27+1) 274 16 50 51 1 1 1 (1/20) (by norm_num)
  obtain ⟨cP1, cP2⟩ := cP hP1 hP2
  obtain ⟨cU1, cU2⟩ := cU hU1 hU2
  obtain ⟨cC1, cC2⟩ := cC hC1 hC2
  exact ⟨⟨by norm_num, ⟨hP1, hP2, hP3⟩, ⟨hU1, hU2, hU3⟩, ⟨hC1, hC2, hC3⟩⟩,
    ⟨cP1, cP2 hP3⟩, ⟨cU1, cU2 hU3⟩, ⟨cC1, cC2 hC3⟩⟩

end FRIAnalysis
